import Mathlib

/-!
Verification of the i2c-lcd-controller driver (`src/i2c_lcd/lcd.py`).

The development is a shallow embedding of the `LCD` class: pure string and
byte manipulation becomes Lean functions on `List Char` / `Nat`, Python
exceptions become `Except String`, and the mutable object state becomes an
explicit `LCDState` record threaded through the operations.  Bus activity is
modelled as the list of bytes (or of `(line, text)` print calls) an operation
emits, in order.

Python-specific behaviours are translated explicitly:
* Python slice indices may be negative (counted from the end) and are clamped;
  `pySliceTo`/`pySliceFrom` reproduce `s[:k]` and `s[k:]`.
* `round(width / 2 + 0.1)` equals `⌈width / 2⌉ = (width + 1) / 2` and
  `round(width / 2 - 0.1)` equals `⌊width / 2⌋ = width / 2` for every
  non-negative integer `width` (the offsets 0.1 keep the float away from the
  .5 ties, so banker's rounding never triggers).
* Machine integers are unbounded in Python, so plain `Nat`/`Int` are used.
-/

namespace I2cLcd

/-- Python `s[:k]` on a list of characters: a negative `k` counts from the
end; out-of-range indices are clamped. -/
def pySliceTo (l : List Char) (k : Int) : List Char :=
  l.take (if k < 0 then ((l.length : Int) + k).toNat else k.toNat)

/-- Python `s[k:]` on a list of characters: a negative `k` counts from the
end; out-of-range indices are clamped. -/
def pySliceFrom (l : List Char) (k : Int) : List Char :=
  l.drop (if k < 0 then ((l.length : Int) + k).toNat else k.toNat)

/-- `LCD.TruncateMode` (lcd.py lines 70-87). -/
inductive TruncateMode
  | TRUNCATE
  | ELLIPSIS_END
  | ELLIPSIS_MIDDLE
  | SCROLL
deriving DecidableEq

/-- The truncation marker `ellipsis = ".."` of `LCD._truncate`
(lcd.py line 440). -/
def ellipsisChars : List Char := ['.', '.']

/-- `LCD._truncate(text, width)` (lcd.py lines 433-464), with the stored
truncate mode passed explicitly.  Faithful points:
* short strings are padded with spaces to exactly `width`;
* `ELLIPSIS_END` slices `text[: width - len(ellipsis)]` (`len(ellipsis) = 2`)
  but appends the hard-coded three-character literal `"..."`, exactly as the
  source does on line 450;
* `ELLIPSIS_MIDDLE` takes `text[: round(width/2 + 0.1)]`, i.e. the first
  `(width+1)/2` characters, and `text[-(round(width/2 - 0.1) - 2):]`, i.e. a
  Python slice from index `-(width/2 - 2)`;
* `SCROLL` raises `NotImplementedError` (line 460).
The `else: raise ValueError` arm of the source is unreachable because the
four constructors above are the whole enum. -/
def truncate (mode : TruncateMode) (text : List Char) (width : Nat) :
    Except String (List Char) :=
  if text.length ≤ width then
    Except.ok (text ++ List.replicate (width - text.length) ' ')
  else
    match mode with
    | TruncateMode.TRUNCATE =>
        Except.ok (text.take width)
    | TruncateMode.ELLIPSIS_END =>
        Except.ok (pySliceTo text ((width : Int) - 2) ++ ['.', '.', '.'])
    | TruncateMode.ELLIPSIS_MIDDLE =>
        Except.ok (text.take ((width + 1) / 2) ++ ellipsisChars
          ++ pySliceFrom text (-((width : Int) / 2 - 2)))
    | TruncateMode.SCROLL =>
        Except.error "Scroll mode not implemented"

/-- `LCD.set_truncate_mode(mode)` (lcd.py lines 650-659): the guard tests the
*currently stored* mode, not the argument; on success the argument becomes
the new stored mode. -/
def set_truncate_mode (current : TruncateMode) (mode : TruncateMode) :
    Except String TruncateMode :=
  if current = TruncateMode.SCROLL then
    Except.error "Scroll mode not implemented"
  else
    Except.ok mode

-- Control bits on the I2C expander (lcd.py lines 160-176).

/-- `LCD._INSTRUCTION_REGISTER`. -/
def INSTRUCTION_REGISTER : Nat := 0b0000

/-- `LCD._DATA_REGISTER`. -/
def DATA_REGISTER : Nat := 0b0001

/-- `LCD._WRITE`. -/
def WRITE_BIT : Nat := 0b0000

/-- `LCD._ENABLE`. -/
def ENABLE : Nat := 0b0100

/-- `LCD._BACKLIGHT_ON`. -/
def BACKLIGHT_ON : Nat := 0b1000

/-- `LCD._BACKLIGHT_OFF`. -/
def BACKLIGHT_OFF : Nat := 0b0000

/-- `LCD._Commands.SET_DDRAM_ADDRESS`. -/
def SET_DDRAM_ADDRESS : Nat := 0b10000000

/-- `LCD._lcd_write4(register, data)` (lcd.py lines 517-536): ORs in the
register select and write bits and the backlight bit, then emits the byte
twice on the bus — first with `ENABLE` set, then with it cleared. -/
def lcd_write4 (register : Nat) (backlight : Bool) (data : Nat) : List Nat :=
  let d := (data ||| (register ||| WRITE_BIT))
    ||| (if backlight then BACKLIGHT_ON else BACKLIGHT_OFF)
  [d ||| ENABLE, d]

/-- `LCD._lcd_write_byte(register, data)` (lcd.py lines 497-515): splits the
byte into `hi = data & 0xF0` and `lo = data & 0x0F`, writing the high nibble
first, then the low nibble shifted into the upper four bits. -/
def lcd_write_byte (register : Nat) (backlight : Bool) (data : Nat) :
    List Nat :=
  lcd_write4 register backlight (data &&& 0xF0)
    ++ lcd_write4 register backlight ((data &&& 0x0F) <<< 4)

/-- The `line_addresses` table of `LCD._set_display_address`
(lcd.py line 350). -/
def line_addresses : List Nat := [0x00, 0x40, 0x14, 0x54]

/-- `LCD._set_display_address(line, position)` (lcd.py lines 334-364),
returning the list of command bytes written: validation happens before any
bus activity, so the error cases emit nothing, and the success case writes
the single command `SET_DDRAM_ADDRESS | (line_addresses[line] + position)`.
The source interpolates the offending values into its `ValueError` messages;
the model keeps fixed message texts.  `line_addresses[line]` is modelled with
`getD`, which agrees with the Python list indexing whenever `line < 4`; this
is the supported-geometry region `height ≤ 4` (heights 1, 2 and 4 per the
module documentation). -/
def set_display_address (height width : Nat) (line position : Int) :
    Except String (List Nat) :=
  if ¬(0 ≤ line ∧ line < (height : Int)) then
    Except.error "Line number out of range"
  else if ¬(0 ≤ position ∧ position < (width : Int)) then
    Except.error "Position out of range"
  else
    Except.ok [SET_DDRAM_ADDRESS
      ||| (line_addresses.getD line.toNat 0 + position.toNat)]

/-- The character-emission loop of `LCD._print_at` (lcd.py lines 382-389):
each byte is written, then the position is incremented, and the loop breaks
once the position reaches the display width (the check happens *after* the
write). -/
def printLoop (width : Nat) : Nat → List Nat → List Nat
  | _, [] => []
  | position, ch :: rest =>
      ch :: (if width ≤ position + 1 then [] else
        printLoop width (position + 1) rest)

/-- `bytearray(s, "ascii")` (lcd.py line 382): each character's code point,
failing on non-ASCII characters exactly as Python's ascii codec does. -/
def asciiBytes (s : List Char) : Except String (List Nat) :=
  if s.all (fun c => c.toNat < 128) then
    Except.ok (s.map (fun c => c.toNat))
  else
    Except.error "ascii codec error"

/-- `LCD._print_at(line, s)` (lcd.py lines 366-389), returning the data bytes
written to the data register: it first sets the display address to column 0
of `line` (which can raise), then emits the encoded characters through the
clamping loop. -/
def print_at (height width : Nat) (line : Int) (s : List Char) :
    Except String (List Nat) :=
  match set_display_address height width line 0 with
  | Except.error e => Except.error e
  | Except.ok _ =>
      match asciiBytes s with
      | Except.error e => Except.error e
      | Except.ok bytes => Except.ok (printLoop width 0 bytes)

/-- Decidable equality for `Except`, so that the embedded operations can be
evaluated on concrete inputs with `decide`. -/
instance exceptDecEq {ε α : Type} [DecidableEq ε] [DecidableEq α] :
    DecidableEq (Except ε α) := fun a b =>
  match a, b with
  | Except.error e₁, Except.error e₂ =>
      if h : e₁ = e₂ then isTrue (by rw [h])
      else isFalse (fun hh => h (Except.error.inj hh))
  | Except.error _, Except.ok _ => isFalse (fun hh => Except.noConfusion hh)
  | Except.ok _, Except.error _ => isFalse (fun hh => Except.noConfusion hh)
  | Except.ok a₁, Except.ok a₂ =>
      if h : a₁ = a₂ then isTrue (by rw [h])
      else isFalse (fun hh => h (Except.ok.inj hh))

/-- The mutable state of an `LCD` object that the scrollable-buffer layer
reads and writes (lcd.py lines 190-204): the text buffer `self.data`, the
display geometry, the scroll-bar flag, the current viewport start line and
the truncate mode.  The display/cursor/backlight mode flags are untouched by
the buffer operations modelled here and are passed separately where needed
(`lcd_write4`). -/
structure LCDState where
  data : List (List Char)
  width : Nat
  height : Nat
  scrollBar : Bool
  currentStartLine : Int
  truncateMode : TruncateMode
deriving DecidableEq

/-- The `up` indicator choice of `LCD._redraw` (lcd.py lines 393-396). -/
def upMarker (st : LCDState) : List Char :=
  if 0 < st.currentStartLine then ['^'] else [' ']

/-- The `down` indicator choice of `LCD._redraw` (lcd.py lines 397-400). -/
def downMarker (st : LCDState) : List Char :=
  if st.currentStartLine + (st.height : Int) < (st.data.length : Int) then
    ['v']
  else
    [' ']

/-- The marker-column choice of `LCD._redraw` (lcd.py lines 412-419): no
column at all when the scroll bar is off, the up marker on row 0, the down
marker on the last row, one space on middle rows. -/
def rowPfx (st : LCDState) (display_line : Nat) : List Char :=
  if ¬st.scrollBar then []
  else if display_line = 0 then upMarker st
  else if display_line = st.height - 1 then downMarker st
  else [' ']

/-- One iteration of the row loop of `LCD._redraw` (lcd.py lines 421-430),
producing the `(display_line, text)` argument pair of the `_print_at` call
for that physical row: in-range buffer positions render the marker-prefixed
buffer line through `_truncate` (which can raise), out-of-range positions
render the marker followed by spaces. -/
def redrawRow (st : LCDState) (display_line : Nat) :
    Except String (Nat × List Char) :=
  if 0 ≤ st.currentStartLine + (display_line : Int) ∧
      st.currentStartLine + (display_line : Int) < (st.data.length : Int) then
    Except.map (fun t => (display_line, t))
      (truncate st.truncateMode
        (rowPfx st display_line
          ++ st.data.getD (st.currentStartLine + (display_line : Int)).toNat [])
        st.width)
  else
    Except.ok (display_line,
      rowPfx st display_line
        ++ List.replicate (st.width - (rowPfx st display_line).length) ' ')

/-- The row loop of `LCD._redraw` over a list of physical row indices,
propagating the first exception (a raise aborts the remaining rows). -/
def renderList (st : LCDState) :
    List Nat → Except String (List (Nat × List Char))
  | [] => Except.ok []
  | r :: rest =>
      match redrawRow st r with
      | Except.error e => Except.error e
      | Except.ok row =>
          match renderList st rest with
          | Except.error e => Except.error e
          | Except.ok rows => Except.ok (row :: rows)

/-- `LCD._redraw()` (lcd.py lines 391-431), returning the ordered list of
`(line, text)` print calls it makes: when the viewport lies entirely outside
the buffer (`current_start_line + height < 0` or
`current_start_line > len(data)`) the update is skipped and nothing is
printed; otherwise one `_print_at` per physical row in `range(height)`. -/
def redraw (st : LCDState) : Except String (List (Nat × List Char)) :=
  if st.currentStartLine + (st.height : Int) < 0 ∨
      (st.data.length : Int) < st.currentStartLine then
    Except.ok []
  else
    renderList st (List.range st.height)

/-- `LCD.append(item)` (lcd.py lines 222-224): append to the list, then
redraw.  The scroll-bar flag is not touched. -/
def appendOp (st : LCDState) (item : List Char) :
    LCDState × Except String (List (Nat × List Char)) :=
  let st2 := { st with data := st.data ++ [item] }
  (st2, redraw st2)

/-- `LCD.extend(other)` (lcd.py lines 226-228): extend the list, then
redraw.  The scroll-bar flag is not touched. -/
def extendOp (st : LCDState) (other : List (List Char)) :
    LCDState × Except String (List (Nat × List Char)) :=
  let st2 := { st with data := st.data ++ other }
  (st2, redraw st2)

/-- Python `list.insert` index normalisation: negative indices count from the
end and indices are clamped into `[0, len]`. -/
def pyInsertIdx (len : Nat) (i : Int) : Nat :=
  if i < 0 then ((len : Int) + i).toNat else min i.toNat len

/-- `LCD.insert(i, item)` (lcd.py lines 230-232): insert into the list with
Python index semantics, then redraw.  The scroll-bar flag is not touched. -/
def insertOp (st : LCDState) (i : Int) (item : List Char) :
    LCDState × Except String (List (Nat × List Char)) :=
  let st2 :=
    { st with data := st.data.insertIdx (pyInsertIdx st.data.length i) item }
  (st2, redraw st2)

/-- `LCD.reverse()` (lcd.py lines 246-248): reverse the list, then redraw.
The scroll-bar flag is not touched. -/
def reverseOp (st : LCDState) :
    LCDState × Except String (List (Nat × List Char)) :=
  let st2 := { st with data := st.data.reverse }
  (st2, redraw st2)

/-- `LCD.assign(text)` (lcd.py lines 661-667): replace the whole buffer,
recompute `_scroll_bar = len(data) > height`, then redraw. -/
def assignOp (st : LCDState) (text : List (List Char)) :
    LCDState × Except String (List (Nat × List Char)) :=
  let st2 :=
    { st with
      data := text
      scrollBar := decide (st.height < text.length) }
  (st2, redraw st2)

/-- `LCD.show(start_line)` (lcd.py lines 632-648): a no-op when `start_line`
equals the current viewport start; otherwise store the new start and redraw.
The second component is `none` when no redraw was issued and `some trace`
when one was. -/
def showOp (st : LCDState) (start_line : Int) :
    LCDState × Option (Except String (List (Nat × List Char))) :=
  if st.currentStartLine = start_line then
    (st, none)
  else
    let st2 := { st with currentStartLine := start_line }
    (st2, some (redraw st2))

/-- `LCD.remove(item)` (lcd.py lines 234-236): `list.remove` deletes the
first occurrence of `item`, raising `ValueError` when the item is absent;
the raise happens in `super().remove(item)`, before `_redraw()` is reached,
so on the error path there is no state change and no redraw.  On success the
display is redrawn synchronously. -/
def removeOp (st : LCDState) (item : List Char) :
    Except String (LCDState × Except String (List (Nat × List Char))) :=
  if item ∈ st.data then
    let st2 := { st with data := st.data.erase item }
    Except.ok (st2, redraw st2)
  else
    Except.error "list.remove(x): x not in list"

/-- Python index normalisation shared by `list.pop`, `list.__setitem__` and
`list.__delitem__` with an integer index: a negative index counts from the
end (no clamping — a still-negative or too-large result raises
`IndexError`). -/
def pyPopIdx (len : Nat) (i : Int) : Int :=
  if i < 0 then i + (len : Int) else i

/-- `LCD.pop(i=-1)` (lcd.py lines 238-240): `list.pop` removes the element
at the (normalised) index, raising `IndexError` — before `_redraw()` — when
it is out of range.  The normalised index is repeated rather than
let-bound, for the ease of the proofs. -/
def popOp (st : LCDState) (i : Int) :
    Except String (LCDState × Except String (List (Nat × List Char))) :=
  if 0 ≤ pyPopIdx st.data.length i ∧
      pyPopIdx st.data.length i < (st.data.length : Int) then
    Except.ok
      ({ st with data := st.data.eraseIdx (pyPopIdx st.data.length i).toNat },
       redraw
        { st with data := st.data.eraseIdx (pyPopIdx st.data.length i).toNat })
  else
    Except.error "pop index out of range"

/-- Python string comparison `a <= b` (used by `list.sort` with the default
`key=None`): lexicographic on code points, a proper prefix preceding the
longer string. -/
def pyStrLe : List Char → List Char → Bool
  | [], _ => true
  | _ :: _, [] => false
  | a :: as, b :: bs =>
      if a.toNat < b.toNat then true
      else if b.toNat < a.toNat then false
      else pyStrLe as bs

/-- `LCD.sort(key=None, reverse=False)` (lcd.py lines 242-244) for the
default `key=None`: a stable ascending sort by Python string comparison.
CPython implements `reverse=True` by reversing the list, stable-sorting
ascending and reversing again, which sorts descending while keeping equal
elements in their original relative order; the model reproduces that
shape.  Arbitrary `key` callables are outside the shallow embedding. -/
def sortOp (st : LCDState) (rev : Bool) :
    LCDState × Except String (List (Nat × List Char)) :=
  let sorted :=
    if rev then (st.data.reverse.mergeSort pyStrLe).reverse
    else st.data.mergeSort pyStrLe
  let st2 := { st with data := sorted }
  (st2, redraw st2)

/-- `LCD.__setitem__(i, item)` (lcd.py lines 250-252) with an integer
index (the declared `SupportsIndex` argument): element replacement with
Python index semantics — a negative index counts from the end and an
out-of-range index raises `IndexError` before `_redraw()`.  On success the
element is replaced and the display redrawn. -/
def setItemOp (st : LCDState) (i : Int) (item : List Char) :
    Except String (LCDState × Except String (List (Nat × List Char))) :=
  if 0 ≤ pyPopIdx st.data.length i ∧
      pyPopIdx st.data.length i < (st.data.length : Int) then
    Except.ok
      ({ st with data := st.data.set (pyPopIdx st.data.length i).toNat item },
       redraw
        { st with data := st.data.set (pyPopIdx st.data.length i).toNat item })
  else
    Except.error "list assignment index out of range"

/-- `LCD.__delitem__(i)` (lcd.py lines 254-256) with an integer index:
deletion with Python index semantics — a negative index counts from the end
and an out-of-range index raises `IndexError` before `_redraw()`.  On
success the element is removed and the display redrawn. -/
def delItemOp (st : LCDState) (i : Int) :
    Except String (LCDState × Except String (List (Nat × List Char))) :=
  if 0 ≤ pyPopIdx st.data.length i ∧
      pyPopIdx st.data.length i < (st.data.length : Int) then
    Except.ok
      ({ st with data := st.data.eraseIdx (pyPopIdx st.data.length i).toNat },
       redraw
        { st with data := st.data.eraseIdx (pyPopIdx st.data.length i).toNat })
  else
    Except.error "list assignment index out of range"

/-- Python slice-endpoint normalisation for a step-1 slice: a negative
endpoint counts from the end, and both endpoints are clamped into
`[0, len]`. -/
def pySliceIdx (len : Nat) (k : Int) : Nat :=
  if k < 0 then ((len : Int) + k).toNat else min k.toNat len

/-- `LCD.__delitem__(a:b)` (lcd.py lines 254-256) with a step-1 slice:
`del data[a:b]` clamps both endpoints into `[0, len]` and removes the
elements in `[start, stop)` (nothing when `stop ≤ start`); slice deletion
never raises.  The display is then redrawn synchronously. -/
def delSliceOp (st : LCDState) (a b : Int) :
    LCDState × Except String (List (Nat × List Char)) :=
  let s := pySliceIdx st.data.length a
  let e := pySliceIdx st.data.length b
  let st2 := { st with data := st.data.take s ++ st.data.drop (max s e) }
  (st2, redraw st2)

end I2cLcd

namespace I2cLcd

/-- Claim C1 (code bug evaluation): with mode `ELLIPSIS_END`, a 21-character
text truncated to width 20 yields the first 18 characters followed by the
three-character literal `"..."` — 21 characters in total, one more than the
display width, ending in a three-character marker rather than the
two-character `ellipsis = ".."` the function itself defines. -/
theorem C1_ellipsis_end_eval :
    truncate TruncateMode.ELLIPSIS_END
        (String.toList "abcdefghijklmnopqrstu") 20
      = Except.ok (String.toList "abcdefghijklmnopqr...")
    ∧ (String.toList "abcdefghijklmnopqr...").length = 21 :=
  ⟨rfl, rfl⟩

/-- Claim C2 (counterexample): with current mode `TRUNCATE`, calling
`set_truncate_mode(SCROLL)` does not fail — it returns normally and stores
`SCROLL` — contradicting the claim that the call raises a "not implemented"
error at that call. -/
theorem C2_counterexample :
    set_truncate_mode TruncateMode.TRUNCATE TruncateMode.SCROLL
      = Except.ok TruncateMode.SCROLL :=
  rfl

/-- Claim C2 (amended): from any current mode other than `SCROLL`, selecting
`SCROLL` succeeds and stores the mode; the "not implemented" error is raised
at the first *use* of the stored mode — by `_truncate` when an over-long line
is next rendered. -/
theorem C2_scroll_behavior (cur : TruncateMode) (t : List Char) (w : Nat)
    (hc : cur ≠ TruncateMode.SCROLL) (hl : w < t.length) :
    set_truncate_mode cur TruncateMode.SCROLL
        = Except.ok TruncateMode.SCROLL
    ∧ truncate TruncateMode.SCROLL t w
        = Except.error "Scroll mode not implemented" := by
  constructor
  · simp [set_truncate_mode, hc]
  · unfold truncate
    rw [if_neg (by omega)]

/-- Witness for C2: concrete instance with current mode `TRUNCATE` and a
3-character line at width 2. -/
theorem C2_scroll_behavior_witness :
    set_truncate_mode TruncateMode.TRUNCATE TruncateMode.SCROLL
        = Except.ok TruncateMode.SCROLL
    ∧ truncate TruncateMode.SCROLL ['a', 'b', 'c'] 2
        = Except.error "Scroll mode not implemented" :=
  C2_scroll_behavior TruncateMode.TRUNCATE ['a', 'b', 'c'] 2
    (by decide) (by decide)

/-- Claim C10: once the stored truncate mode is `SCROLL`, every call of
`set_truncate_mode` raises `NotImplementedError` no matter which mode is
requested — including valid modes such as `TRUNCATE` — so the mode can never
be changed away from `SCROLL` through the public setter. -/
theorem C10_scroll_locked (m : TruncateMode) :
    set_truncate_mode TruncateMode.SCROLL m
      = Except.error "Scroll mode not implemented" := by
  rfl

/-- Claim C4: for `0 ≤ row < height ≤ 4` and `0 ≤ column < width`, the
move-to operation emits exactly the single command byte
`SET_DDRAM_ADDRESS | (line_addresses[row] + column)` with the table
`[0x00, 0x40, 0x14, 0x54]`; for every out-of-range `(row, column)` it fails
with a range error and emits no bus write at all. -/
theorem C4_moveTo (height width : Nat) (line position : Int)
    (hh : height ≤ 4) :
    (0 ≤ line → line < (height : Int) → 0 ≤ position →
      position < (width : Int) →
      set_display_address height width line position
        = Except.ok [SET_DDRAM_ADDRESS
            ||| (line_addresses.getD line.toNat 0 + position.toNat)])
    ∧ (¬(0 ≤ line ∧ line < (height : Int) ∧ 0 ≤ position ∧
          position < (width : Int)) →
        ∃ e, set_display_address height width line position
          = Except.error e) := by
  constructor
  · intro h1 h2 h3 h4
    unfold set_display_address
    rw [if_neg (by omega), if_neg (by omega)]
  · intro h
    unfold set_display_address
    by_cases hline : 0 ≤ line ∧ line < (height : Int)
    · rw [if_neg (by omega)]
      rw [if_pos (by omega)]
      exact ⟨_, rfl⟩
    · rw [if_pos hline]
      exact ⟨_, rfl⟩

/-- Witness for C4: on a 20×4 display, moving to row 2 column 5 writes the
single command `0x80 | (0x14 + 5)`, and moving to row 4 fails with a range
error. -/
theorem C4_moveTo_witness :
    set_display_address 4 20 2 5
        = Except.ok [SET_DDRAM_ADDRESS
            ||| (line_addresses.getD (Int.toNat 2) 0 + Int.toNat 5)]
    ∧ ∃ e, set_display_address 4 20 4 0 = Except.error e :=
  ⟨(C4_moveTo 4 20 2 5 (by decide)).1 (by decide) (by decide) (by decide)
      (by decide),
   (C4_moveTo 4 20 4 0 (by decide)).2 (by decide)⟩

/-- Claim C5: writing byte `b` to a register produces exactly four bus bytes
in this order: high nibble with register select, write bit 0, backlight bit
and enable; the same with enable cleared; then the low nibble shifted into
bits 7-4 with enable; then the same with enable cleared — high nibble
strictly before low nibble. -/
theorem C5_write_byte (register : Nat) (backlight : Bool) (b : Nat) :
    lcd_write_byte register backlight b =
      [(b &&& 0xF0) ||| register ||| 0 ||| (if backlight then 8 else 0) ||| 4,
       (b &&& 0xF0) ||| register ||| 0 ||| (if backlight then 8 else 0),
       ((b &&& 0x0F) <<< 4) ||| register ||| 0
         ||| (if backlight then 8 else 0) ||| 4,
       ((b &&& 0x0F) <<< 4) ||| register ||| 0
         ||| (if backlight then 8 else 0)] := by
  cases backlight <;>
    simp [lcd_write_byte, lcd_write4, WRITE_BIT, ENABLE, BACKLIGHT_ON,
      BACKLIGHT_OFF, Nat.or_assoc, Nat.or_zero, Nat.zero_or]

end I2cLcd

namespace I2cLcd

/-- Claim C6 (counterexample): at width 20 and a 21-character text, the claim
forces the head kept before the ellipsis to be the first
`⌈(20-2)/2⌉ = 9` characters and the tail the last `⌊(20-2)/2⌋ = 9`
characters; the code instead keeps the first 10 and the last 8, so the
claimed result is not what `_truncate` returns. -/
theorem C6_counterexample :
    truncate TruncateMode.ELLIPSIS_MIDDLE
        (String.toList "abcdefghijklmnopqrstu") 20
      ≠ Except.ok ((String.toList "abcdefghijklmnopqrstu").take 9
          ++ ellipsisChars
          ++ (String.toList "abcdefghijklmnopqrstu").drop 12) := by
  decide

/-- Helper: `l.take a ++ l.drop m` keeps elements of `l` in their original
relative order whenever `a ≤ m`. -/
theorem take_drop_sublist (l : List Char) (a m : Nat) (h : a ≤ m) :
    List.Sublist (l.take a ++ l.drop m) l := by
  have h1 : l.drop m = (l.drop a).drop (m - a) := by
    rw [List.drop_drop]
    congr 1
    omega
  have h2 : List.Sublist (l.drop m) (l.drop a) := by
    rw [h1]
    exact List.drop_sublist _ _
  have h3 := h2.append_left (l.take a)
  simpa [List.take_append_drop] using h3

/-- Claim C6 (amended): for `width ≥ 6` and text longer than `width`, the
`ELLIPSIS_MIDDLE` result is head + ".." + tail where the head is the prefix
of `t` of length `⌈width/2⌉` and the tail is the suffix of length
`⌊width/2⌋ - 2` (not `⌈(width-2)/2⌉` and `⌊(width-2)/2⌋` as claimed); the
result still has length exactly `width`, and head followed by tail keeps the
kept characters of `t` in their original relative order. -/
theorem C6_middle (t : List Char) (w : Nat) (hw : 6 ≤ w) (ht : w < t.length) :
    truncate TruncateMode.ELLIPSIS_MIDDLE t w
      = Except.ok (t.take ((w + 1) / 2) ++ ellipsisChars
          ++ t.drop (t.length - (w / 2 - 2)))
    ∧ (t.take ((w + 1) / 2) ++ ellipsisChars
        ++ t.drop (t.length - (w / 2 - 2))).length = w
    ∧ List.Sublist
        (t.take ((w + 1) / 2) ++ t.drop (t.length - (w / 2 - 2))) t := by
  have hdrop : pySliceFrom t (-((w : Int) / 2 - 2))
      = t.drop (t.length - (w / 2 - 2)) := by
    unfold pySliceFrom
    rw [if_pos (by omega)]
    congr 1
    omega
  refine ⟨?_, ?_, ?_⟩
  · unfold truncate
    rw [if_neg (by omega), hdrop]
  · simp only [List.length_append, List.length_take, List.length_drop,
      ellipsisChars, List.length_cons, List.length_nil]
    omega
  · exact take_drop_sublist t _ _ (by omega)

/-- Witness for C6: the amended statement at width 20 on a concrete
21-character text. -/
theorem C6_middle_witness :
    truncate TruncateMode.ELLIPSIS_MIDDLE
        (String.toList "abcdefghijklmnopqrstu") 20
      = Except.ok ((String.toList "abcdefghijklmnopqrstu").take ((20 + 1) / 2)
          ++ ellipsisChars
          ++ (String.toList "abcdefghijklmnopqrstu").drop
              ((String.toList "abcdefghijklmnopqrstu").length - (20 / 2 - 2)))
    ∧ ((String.toList "abcdefghijklmnopqrstu").take ((20 + 1) / 2)
        ++ ellipsisChars
        ++ (String.toList "abcdefghijklmnopqrstu").drop
            ((String.toList "abcdefghijklmnopqrstu").length
              - (20 / 2 - 2))).length = 20
    ∧ List.Sublist
        ((String.toList "abcdefghijklmnopqrstu").take ((20 + 1) / 2)
          ++ (String.toList "abcdefghijklmnopqrstu").drop
              ((String.toList "abcdefghijklmnopqrstu").length - (20 / 2 - 2)))
        (String.toList "abcdefghijklmnopqrstu") :=
  C6_middle (String.toList "abcdefghijklmnopqrstu") 20 (by decide) (by decide)

/-- Concrete state for the C3 counterexample: a one-line display whose
buffer holds exactly one line, so the stored scroll-bar flag `false` is
consistent before the mutation. -/
def exC3 : LCDState :=
  { data := [['a']], width := 20, height := 1, scrollBar := false,
    currentStartLine := 0, truncateMode := TruncateMode.TRUNCATE }

/-- Claim C3 (counterexample): after `append`, the buffer has 2 lines on a
1-row display, but the scroll-bar flag is still `false` — the mutation did
not recompute the "has more content than fits" flag from the new length. -/
theorem C3_counterexample :
    (appendOp exC3 ['b']).1.scrollBar
      ≠ decide (exC3.height < (appendOp exC3 ['b']).1.data.length) := by
  decide

/-- Claim C3 (amended): every structural mutation of the text buffer —
append, extend, insert, remove, pop, sort, reverse, element replace,
integer and slice delete, and bulk-assign — applies the list change and
synchronously performs a full redraw of the new state before returning (on
the raising paths of remove, pop, element replace and integer delete the
exception propagates before the redraw, with no state change), but only
`assign` recomputes the scroll-bar flag; every other mutation leaves the
stored flag unchanged. -/
theorem C3_mutations (st : LCDState) (item : List Char)
    (other texts : List (List Char)) (i a b : Int) (rev : Bool) :
    ((appendOp st item).2 = redraw (appendOp st item).1
      ∧ (appendOp st item).1.scrollBar = st.scrollBar
      ∧ (appendOp st item).1.data = st.data ++ [item])
    ∧ ((extendOp st other).2 = redraw (extendOp st other).1
      ∧ (extendOp st other).1.scrollBar = st.scrollBar
      ∧ (extendOp st other).1.data = st.data ++ other)
    ∧ ((insertOp st i item).2 = redraw (insertOp st i item).1
      ∧ (insertOp st i item).1.scrollBar = st.scrollBar
      ∧ (insertOp st i item).1.data
          = st.data.insertIdx (pyInsertIdx st.data.length i) item)
    ∧ (if item ∈ st.data then
        removeOp st item
          = Except.ok ({ st with data := st.data.erase item },
              redraw { st with data := st.data.erase item })
      else removeOp st item = Except.error "list.remove(x): x not in list")
    ∧ ({ st with data := st.data.erase item } : LCDState).scrollBar
        = st.scrollBar
    ∧ (if 0 ≤ pyPopIdx st.data.length i ∧
          pyPopIdx st.data.length i < (st.data.length : Int) then
        popOp st i
          = Except.ok
              ({ st with
                  data := st.data.eraseIdx (pyPopIdx st.data.length i).toNat },
               redraw
                { st with
                  data := st.data.eraseIdx (pyPopIdx st.data.length i).toNat })
      else popOp st i = Except.error "pop index out of range")
    ∧ ({ st with data := st.data.eraseIdx (pyPopIdx st.data.length i).toNat }
        : LCDState).scrollBar = st.scrollBar
    ∧ ((sortOp st rev).2 = redraw (sortOp st rev).1
      ∧ (sortOp st rev).1.scrollBar = st.scrollBar
      ∧ (sortOp st rev).1.data
          = (if rev then (st.data.reverse.mergeSort pyStrLe).reverse
             else st.data.mergeSort pyStrLe))
    ∧ ((reverseOp st).2 = redraw (reverseOp st).1
      ∧ (reverseOp st).1.scrollBar = st.scrollBar
      ∧ (reverseOp st).1.data = st.data.reverse)
    ∧ (if 0 ≤ pyPopIdx st.data.length i ∧
          pyPopIdx st.data.length i < (st.data.length : Int) then
        setItemOp st i item
          = Except.ok
              ({ st with
                  data := st.data.set (pyPopIdx st.data.length i).toNat item },
               redraw
                { st with
                  data := st.data.set (pyPopIdx st.data.length i).toNat item })
      else setItemOp st i item
          = Except.error "list assignment index out of range")
    ∧ ({ st with data := st.data.set (pyPopIdx st.data.length i).toNat item }
        : LCDState).scrollBar = st.scrollBar
    ∧ (if 0 ≤ pyPopIdx st.data.length i ∧
          pyPopIdx st.data.length i < (st.data.length : Int) then
        delItemOp st i
          = Except.ok
              ({ st with
                  data := st.data.eraseIdx (pyPopIdx st.data.length i).toNat },
               redraw
                { st with
                  data := st.data.eraseIdx (pyPopIdx st.data.length i).toNat })
      else delItemOp st i
          = Except.error "list assignment index out of range")
    ∧ ((delSliceOp st a b).2 = redraw (delSliceOp st a b).1
      ∧ (delSliceOp st a b).1.scrollBar = st.scrollBar
      ∧ (delSliceOp st a b).1.data
          = st.data.take (pySliceIdx st.data.length a)
            ++ st.data.drop (max (pySliceIdx st.data.length a)
                  (pySliceIdx st.data.length b)))
    ∧ ((assignOp st texts).2 = redraw (assignOp st texts).1
      ∧ (assignOp st texts).1.scrollBar = decide (st.height < texts.length)
      ∧ (assignOp st texts).1.data = texts) := by
  refine ⟨⟨rfl, rfl, rfl⟩, ⟨rfl, rfl, rfl⟩, ⟨rfl, rfl, rfl⟩, ?_, rfl, ?_,
    rfl, ⟨rfl, rfl, rfl⟩, ⟨rfl, rfl, rfl⟩, ?_, rfl, ?_, ⟨rfl, rfl, rfl⟩,
    ⟨rfl, rfl, rfl⟩⟩
  · by_cases h : item ∈ st.data
    · rw [if_pos h]
      unfold removeOp
      rw [if_pos h]
    · rw [if_neg h]
      unfold removeOp
      rw [if_neg h]
  · by_cases h : 0 ≤ pyPopIdx st.data.length i ∧
        pyPopIdx st.data.length i < (st.data.length : Int)
    · rw [if_pos h]
      unfold popOp
      rw [if_pos h]
    · rw [if_neg h]
      unfold popOp
      rw [if_neg h]
  · by_cases h : 0 ≤ pyPopIdx st.data.length i ∧
        pyPopIdx st.data.length i < (st.data.length : Int)
    · rw [if_pos h]
      unfold setItemOp
      rw [if_pos h]
    · rw [if_neg h]
      unfold setItemOp
      rw [if_neg h]
  · by_cases h : 0 ≤ pyPopIdx st.data.length i ∧
        pyPopIdx st.data.length i < (st.data.length : Int)
    · rw [if_pos h]
      unfold delItemOp
      rw [if_pos h]
    · rw [if_neg h]
      unfold delItemOp
      rw [if_neg h]

/-- Concrete state for the C9 counterexample: the current viewport start is
already 0. -/
def exC9 : LCDState :=
  { data := [['a'], ['b']], width := 4, height := 1, scrollBar := true,
    currentStartLine := 0, truncateMode := TruncateMode.TRUNCATE }

/-- Claim C9 (counterexample): two consecutive `show(0)` calls on a state
whose viewport start is already 0 issue zero redraws, not exactly one — the
first call is already a no-op because `start_line` equals the current
viewport start. -/
theorem C9_counterexample :
    (showOp exC9 0).2 = none ∧ (showOp (showOp exC9 0).1 0).2 = none := by
  decide

/-- Claim C9 (amended): the first `show(n)` call issues exactly one redraw
of the updated state when `n` differs from the current viewport start and no
redraw when it is equal; the second call with the same `n` is always a
no-op — it issues no redraw (hence no bus writes) and leaves the state
unchanged. -/
theorem C9_show_pair (st : LCDState) (n : Int) :
    (showOp st n).2 = (if st.currentStartLine = n then none
        else some (redraw { st with currentStartLine := n }))
    ∧ showOp (showOp st n).1 n = ((showOp st n).1, none) := by
  by_cases h : st.currentStartLine = n <;> simp [showOp, h]

end I2cLcd

namespace I2cLcd

/-- Helper: `_truncate` only raises for the `SCROLL` mode; every other mode
returns normally on every input. -/
theorem truncate_ok_of_ne_scroll (mode : TruncateMode) (text : List Char)
    (width : Nat) (hm : mode ≠ TruncateMode.SCROLL) :
    ∃ out, truncate mode text width = Except.ok out := by
  unfold truncate
  split
  · exact ⟨_, rfl⟩
  · cases mode with
    | TRUNCATE => exact ⟨_, rfl⟩
    | ELLIPSIS_END => exact ⟨_, rfl⟩
    | ELLIPSIS_MIDDLE => exact ⟨_, rfl⟩
    | SCROLL => exact absurd rfl hm

/-- Helper: when the truncate mode is not `SCROLL`, rendering one row never
raises. -/
theorem redrawRow_ok (st : LCDState) (r : Nat)
    (hm : st.truncateMode ≠ TruncateMode.SCROLL) :
    ∃ row, redrawRow st r = Except.ok row := by
  unfold redrawRow
  split
  · obtain ⟨out, hout⟩ := truncate_ok_of_ne_scroll st.truncateMode _ st.width hm
    rw [hout]
    exact ⟨_, rfl⟩
  · exact ⟨_, rfl⟩

/-- Helper: a row whose buffer position is out of range renders as the
marker column followed by spaces. -/
theorem redrawRow_out_of_range (st : LCDState) (r : Nat)
    (h : ¬(0 ≤ st.currentStartLine + (r : Int) ∧
        st.currentStartLine + (r : Int) < (st.data.length : Int))) :
    redrawRow st r = Except.ok (r, rowPfx st r
      ++ List.replicate (st.width - (rowPfx st r).length) ' ') := by
  unfold redrawRow
  rw [if_neg h]

/-- Helper: when no row raises, the row loop returns one rendered row per
requested row index, in order. -/
theorem renderList_ok (st : LCDState)
    (hm : st.truncateMode ≠ TruncateMode.SCROLL) :
    ∀ l : List Nat, ∃ rows, renderList st l = Except.ok rows
      ∧ List.Forall₂ (fun r row => redrawRow st r = Except.ok row) l rows := by
  intro l
  induction l with
  | nil => exact ⟨[], rfl, List.Forall₂.nil⟩
  | cons r rest ih =>
      obtain ⟨row, hrow⟩ := redrawRow_ok st r hm
      obtain ⟨rows, hrows, hrel⟩ := ih
      refine ⟨row :: rows, ?_, List.Forall₂.cons hrow hrel⟩
      unfold renderList
      rw [hrow, hrows]

/-- Concrete state for the C7 counterexample: a 2-row display with a 3-line
buffer and viewport start -3, so the whole viewport lies before the buffer. -/
def exC7 : LCDState :=
  { data := [['a'], ['b'], ['c']], width := 5, height := 2, scrollBar := true,
    currentStartLine := -3, truncateMode := TruncateMode.TRUNCATE }

/-- Claim C7 (counterexample): with viewport start -3 on a 2-row display,
the start index is negative, yet the redraw renders no row at all (the
update is skipped entirely), instead of rendering every physical row as
blank. -/
theorem C7_counterexample :
    exC7.currentStartLine < 0
    ∧ redraw exC7 = Except.ok []
    ∧ 0 < exC7.height := by
  decide

/-- Claim C7 (amended): whenever the viewport at least touches the buffer
(`start + height ≥ 0` and `start ≤ length`) and the truncate mode is not the
raising `SCROLL` mode, a redraw renders every physical row; a row whose
buffer position is out of range is rendered as the indicator column (if any)
followed by spaces; the up marker appears exactly when `start > 0` and the
down marker exactly when `start + height < length`.  When the viewport lies
entirely outside the buffer, the redraw skips and renders nothing (see the
counterexample). -/
theorem C7_render (st : LCDState)
    (h1 : 0 ≤ st.currentStartLine + (st.height : Int))
    (h2 : st.currentStartLine ≤ (st.data.length : Int))
    (hm : st.truncateMode ≠ TruncateMode.SCROLL) :
    ∃ rows, redraw st = Except.ok rows ∧ rows.length = st.height
      ∧ (∀ r, r < st.height →
          ¬(0 ≤ st.currentStartLine + (r : Int) ∧
            st.currentStartLine + (r : Int) < (st.data.length : Int)) →
          rows.getD r (0, []) = (r, rowPfx st r
            ++ List.replicate (st.width - (rowPfx st r).length) ' '))
      ∧ (upMarker st = ['^'] ↔ 0 < st.currentStartLine)
      ∧ (downMarker st = ['v']
          ↔ st.currentStartLine + (st.height : Int)
              < (st.data.length : Int)) := by
  obtain ⟨rows, hrows, hrel⟩ := renderList_ok st hm (List.range st.height)
  obtain ⟨hlen, hget⟩ := List.forall₂_iff_get.mp hrel
  have hlen' : rows.length = st.height := by
    rw [← hlen, List.length_range]
  refine ⟨rows, ?_, hlen', ?_, ?_, ?_⟩
  · unfold redraw
    rw [if_neg (by omega), hrows]
  · intro r hr hout
    have hr1 : r < (List.range st.height).length := by
      rw [List.length_range]
      exact hr
    have hr2 : r < rows.length := by omega
    have hp := hget r hr1 hr2
    rw [List.get_eq_getElem, List.getElem_range] at hp
    rw [redrawRow_out_of_range st r hout] at hp
    have hval := (Except.ok.inj hp).symm
    rw [List.getD_eq_getElem _ _ hr2]
    exact hval
  · unfold upMarker
    split
    · rename_i h
      simp [h]
    · rename_i h
      constructor
      · intro hx
        exact absurd hx (by decide)
      · intro hx
        exact absurd hx h
  · unfold downMarker
    split
    · rename_i h
      simp [h]
    · rename_i h
      constructor
      · intro hx
        exact absurd hx (by decide)
      · intro hx
        exact absurd hx h

/-- Concrete state for the C7 witness: viewport start 0, 2-row display, a
1-line buffer, so row 1 is out of range. -/
def exC7w : LCDState :=
  { data := [['a', 'b', 'c', 'd', 'e', 'f', 'g']], width := 4, height := 2,
    scrollBar := false, currentStartLine := 0,
    truncateMode := TruncateMode.TRUNCATE }

/-- Witness for C7: the amended rendering statement at a concrete partially
out-of-range viewport. -/
theorem C7_render_witness :
    ∃ rows, redraw exC7w = Except.ok rows ∧ rows.length = exC7w.height
      ∧ (∀ r, r < exC7w.height →
          ¬(0 ≤ exC7w.currentStartLine + (r : Int) ∧
            exC7w.currentStartLine + (r : Int) < (exC7w.data.length : Int)) →
          rows.getD r (0, []) = (r, rowPfx exC7w r
            ++ List.replicate (exC7w.width - (rowPfx exC7w r).length) ' '))
      ∧ (upMarker exC7w = ['^'] ↔ 0 < exC7w.currentStartLine)
      ∧ (downMarker exC7w = ['v']
          ↔ exC7w.currentStartLine + (exC7w.height : Int)
              < (exC7w.data.length : Int)) :=
  C7_render exC7w (by decide) (by decide) (by decide)

/-- Helper: starting at position `p < width`, the emission loop of
`_print_at` writes exactly the first `width - p` bytes. -/
theorem printLoop_eq_take (width : Nat) :
    ∀ (l : List Nat) (p : Nat), p < width →
      printLoop width p l = l.take (width - p) := by
  intro l
  induction l with
  | nil =>
      intro p hp
      simp [printLoop]
  | cons ch rest ih =>
      intro p hp
      unfold printLoop
      by_cases h : width ≤ p + 1
      · have hw : width - p = 1 := by omega
        rw [if_pos h, hw]
        simp
      · have hw : width - p = (width - (p + 1)) + 1 := by omega
        rw [if_neg h, ih (p + 1) (by omega), hw]
        simp

/-- Helper: `_set_display_address` succeeds on in-range coordinates. -/
theorem set_display_address_ok (height width : Nat) (line position : Int)
    (hline : 0 ≤ line ∧ line < (height : Int))
    (hpos : 0 ≤ position ∧ position < (width : Int)) :
    set_display_address height width line position
      = Except.ok [SET_DDRAM_ADDRESS
          ||| (line_addresses.getD line.toNat 0 + position.toNat)] := by
  unfold set_display_address
  rw [if_neg (by omega), if_neg (by omega)]

/-- Claim C8 (counterexample): printing the 3-character string "abc" on a
display of width 2 emits only the first 2 bytes — the characters past the
display width are dropped, not passed through to the hardware. -/
theorem C8_counterexample :
    print_at 4 2 0 ['a', 'b', 'c'] = Except.ok [97, 98]
    ∧ print_at 4 2 0 ['a', 'b', 'c']
        ≠ Except.ok (['a', 'b', 'c'].map (fun c => c.toNat)) := by
  decide

/-- Claim C8 (amended): for a valid line on a supported geometry with
`width > 0` and an all-ASCII string, the print operation writes the
characters' code points to the data register in sequence but stops once the
position counter reaches `width`: exactly the first
`min (len s) width` bytes are emitted, and characters past `width` are never
written. -/
theorem C8_print_clamped (height width : Nat) (line : Int) (s : List Char)
    (hh : height ≤ 4) (h0 : 0 ≤ line) (hl : line < (height : Int))
    (hw : 0 < width) (ha : s.all (fun c => c.toNat < 128)) :
    print_at height width line s
      = Except.ok ((s.map (fun c => c.toNat)).take width) := by
  have hsda := set_display_address_ok height width line 0 ⟨h0, hl⟩
    ⟨by omega, by omega⟩
  have hab : asciiBytes s = Except.ok (s.map (fun c => c.toNat)) := by
    unfold asciiBytes
    rw [if_pos ha]
  unfold print_at
  rw [hsda, hab]
  show Except.ok (printLoop width 0 (s.map (fun c => c.toNat)))
    = Except.ok ((s.map (fun c => c.toNat)).take width)
  rw [printLoop_eq_take width (s.map (fun c => c.toNat)) 0 hw]
  simp

/-- Witness for C8: a 2-character string on a width-20 display, emitted in
full. -/
theorem C8_print_clamped_witness :
    print_at 4 20 1 ['h', 'i']
      = Except.ok ((['h', 'i'].map (fun c => c.toNat)).take 20) :=
  C8_print_clamped 4 20 1 ['h', 'i'] (by decide) (by decide) (by decide)
    (by decide) (by decide)

end I2cLcd
